import Mathlib

/-!
Verification of the daily Instagram video scheduling app.

The development shallowly embeds the app's data model and operations:

* `VideoTaskStatus`, `VideoTask`, `PublishResponse` — from `src/types/planner.ts`.
* `hydrateState`, `updateStateStep` — from the `usePersistentState` hook.
* `overdueTasks`, `saveTaskDraft`, `updateTask`, `handlePublish` — from the
  page component (`src/unnamed/part_000`).
* `POST` — from the `/api/instagram/publish` route handler
  (`src/unnamed/part_001`).

The network boundary (`fetch` + `response.json()`) is abstracted as a
`DispatchOutcome` value fed to `handlePublish`; timestamps (`new Date()`
results serialised with `toISOString`) are passed as explicit string
parameters; the scheduled instant `new Date(date + "T" + time)` is modelled
as the ISO string `date ++ "T" ++ time`, compared lexicographically, which
agrees with chronological order for the fixed `YYYY-MM-DDTHH:MM` format.
-/

/-- `VideoTaskStatus` from `src/types/planner.ts`:
`"draft" | "ready" | "queued" | "publishing" | "published" | "failed"`. -/
inductive VideoTaskStatus where
  | draft
  | ready
  | queued
  | publishing
  | published
  | failed
deriving DecidableEq, Repr

/-- `VideoTask` from `src/types/planner.ts`.  `notes?: string` becomes
`Option String`. -/
structure VideoTask where
  id : String
  date : String
  time : String
  title : String
  caption : String
  hashtags : List String
  videoUrl : String
  autopost : Bool
  notes : Option String
  status : VideoTaskStatus
  createdAt : String
  updatedAt : String
deriving DecidableEq, Repr

/-- `PublishResponse` from `src/types/planner.ts`.  The `status` field is a
string (`"success" | "error"`); `instagramMediaId` and `publishId` are
optional.  The page's `handlePublish` also reads `message` through
`result?.message`, which may be absent at runtime, so it is optional here. -/
structure PublishResponse where
  status : String
  message : Option String
  instagramMediaId : Option String
  publishId : Option String
deriving DecidableEq, Repr

/-- `Partial<VideoTask>`: every field optional; an absent field leaves the
task's field unchanged under object spread. -/
structure PartialVideoTask where
  id : Option String := none
  date : Option String := none
  time : Option String := none
  title : Option String := none
  caption : Option String := none
  hashtags : Option (List String) := none
  videoUrl : Option String := none
  autopost : Option Bool := none
  notes : Option String := none
  status : Option VideoTaskStatus := none
  createdAt : Option String := none
  updatedAt : Option String := none
deriving DecidableEq, Repr

/-- The object spread `{ ...task, ...updates, updatedAt: new Date().toISOString() }`
from `updateTask` (part_000 line 145): each present field of `updates`
overrides the task's field, and `updatedAt` is then set to the fresh
timestamp `now`, overriding even an `updatedAt` inside `updates`. -/
def applyUpdates (task : VideoTask) (updates : PartialVideoTask) (now : String) : VideoTask where
  id := updates.id.getD task.id
  date := updates.date.getD task.date
  time := updates.time.getD task.time
  title := updates.title.getD task.title
  caption := updates.caption.getD task.caption
  hashtags := updates.hashtags.getD task.hashtags
  videoUrl := updates.videoUrl.getD task.videoUrl
  autopost := updates.autopost.getD task.autopost
  notes := match updates.notes with
    | some n => some n
    | none => task.notes
  status := updates.status.getD task.status
  createdAt := updates.createdAt.getD task.createdAt
  updatedAt := now

/-- `updateTask` from part_000 lines 143-147:
`current.map(task => task.id === taskId ? { ...task, ...updates, updatedAt: ... } : task)`. -/
def updateTask (tasks : List VideoTask) (taskId : String) (updates : PartialVideoTask)
    (now : String) : List VideoTask :=
  tasks.map fun task => if task.id = taskId then applyUpdates task updates now else task

/-- `deleteTask` from part_000 lines 149-151. -/
def deleteTask (tasks : List VideoTask) (taskId : String) : List VideoTask :=
  tasks.filter fun task => task.id ≠ taskId

/-- The scheduled instant `new Date(task.date + "T" + task.time)` of
part_000 line 121, modelled as the ISO string itself. -/
def scheduledAt (task : VideoTask) : String :=
  task.date ++ "T" ++ task.time

/-- `overdueTasks` from part_000 lines 118-124:
`tasks.filter(task => isBefore(scheduledAt, now) && task.status !== "published")`. -/
def overdueTasks (tasks : List VideoTask) (now : String) : List VideoTask :=
  tasks.filter fun task => decide (scheduledAt task < now) && decide (task.status ≠ .published)

/-- The draft record edited by the staging form:
`Omit<VideoTask, "id" | "status" | "createdAt" | "updatedAt">`. -/
structure TaskDraft where
  date : String
  time : String
  title : String
  caption : String
  hashtags : List String
  videoUrl : String
  autopost : Bool
  notes : Option String
deriving DecidableEq, Repr

/-- `saveTaskDraft` from part_000 lines 126-141, producing the new task
appended to the store.  `id` and the timestamp `now` stand for `createId()`
and `new Date().toISOString()`. -/
def saveTaskDraft (draft : TaskDraft) (id : String) (now : String) : VideoTask where
  id := id
  date := draft.date
  time := draft.time
  title := draft.title
  caption := draft.caption
  hashtags := (draft.hashtags.map String.trim).filter (· ≠ "")
  videoUrl := draft.videoUrl
  autopost := draft.autopost
  notes := draft.notes
  status := if draft.autopost then .queued else .ready
  createdAt := now
  updatedAt := now

/-- The outcome of `fetch` + `await response.json()` in `handlePublish`
(part_000 lines 158-173), as seen by the surrounding control flow:

* `thrown errMsg` — the network call or the JSON parse threw; `errMsg` is
  `some m` when the thrown value was an `Error` with message `m`, and `none`
  when it was not an `Error` instance.
* `replied ok result` — a response arrived and its body parsed; `ok` is
  `response.ok` (HTTP status in the 2xx range) and `result` the parsed body. -/
inductive DispatchOutcome where
  | thrown (errMsg : Option String)
  | replied (ok : Bool) (result : PublishResponse)
deriving DecidableEq, Repr

/-- The payload sent by `handlePublish` (part_000 lines 163-166). -/
structure PublishPayload where
  videoUrl : String
  caption : String
deriving DecidableEq, Repr

/-- The caption of the outbound payload (part_000 line 165):
`[task.caption, task.hashtags.join(" ")].filter(Boolean).join("\n\n")` —
`filter(Boolean)` drops empty strings. -/
def composeOutboundCaption (caption : String) (hashtags : List String) : String :=
  "\n\n".intercalate (([caption, " ".intercalate hashtags]).filter (· ≠ ""))

/-- The outbound payload of `handlePublish` (part_000 lines 163-166):
`videoUrl` verbatim, caption via `composeOutboundCaption`. -/
def publishPayload (task : VideoTask) : PublishPayload where
  videoUrl := task.videoUrl
  caption := composeOutboundCaption task.caption task.hashtags

/-- The store state after `updateTask(task.id, { status: "publishing" })`
(part_000 line 155), i.e. just before the external request is issued. -/
def handlePublishMid (tasks : List VideoTask) (task : VideoTask) (now : String) :
    List VideoTask :=
  updateTask tasks task.id { status := some .publishing } now

/-- `handlePublish` from part_000 lines 153-194, as a function of the store,
the clicked task and the dispatch outcome.  `now1` is the timestamp of the
`publishing` transition, `now2` of the final one.  The success branch fires
when `response.ok && result.status === "success"`; its notes record the
media id (or `"unknown"`); the else branch records
`result?.message ?? "Failed to publish video."`; the catch branch records
the error message or `"Unexpected error while publishing."`. -/
def handlePublish (tasks : List VideoTask) (task : VideoTask) (outcome : DispatchOutcome)
    (now1 now2 : String) : List VideoTask :=
  match outcome with
  | .replied ok result =>
    if ok && result.status = "success" then
      updateTask (handlePublishMid tasks task now1) task.id
        { status := some .published
          notes := some ("Published with media id " ++ result.instagramMediaId.getD "unknown") }
        now2
    else
      updateTask (handlePublishMid tasks task now1) task.id
        { status := some .failed
          notes := some (result.message.getD "Failed to publish video.") } now2
  | .thrown errMsg =>
    updateTask (handlePublishMid tasks task now1) task.id
      { status := some .failed
        notes := some (errMsg.getD "Unexpected error while publishing.") } now2

/-- `PublishRequestBody` from the route handler (part_001 lines 5-8): both
fields optional. -/
structure PublishRequestBody where
  videoUrl : Option String := none
  caption : Option String := none
deriving DecidableEq, Repr

/-- A JSON body returned by the route handler: either one of its own
`{status: "error", message}` validation payloads, or the upstream
`PublishResponse` passed through verbatim. -/
inductive RouteBody where
  | errorBody (message : String)
  | upstreamBody (r : PublishResponse)
deriving DecidableEq, Repr

/-- A route response: HTTP status code, JSON body, and whether
`publishVideo` (the upstream call) was invoked while producing it. -/
structure RouteResult where
  statusCode : Nat
  body : RouteBody
  upstreamCalled : Bool
deriving DecidableEq, Repr

/-- JavaScript `String.prototype.trim`: strip whitespace from both ends.
(Executable model of the `?.trim()` calls in part_001 lines 25-26.) -/
def jsTrim (s : String) : String :=
  ⟨((s.data.dropWhile Char.isWhitespace).reverse.dropWhile Char.isWhitespace).reverse⟩

/-- `POST` from part_001 lines 10-53.  `requestBody` is `none` when
`request.json()` throws (invalid JSON), `some body` otherwise; `upstream`
is the value `await publishVideo(videoUrl, caption)` would return.  The
guards mirror `!videoUrl` / `!caption` after `?.trim()`: falsy when the
field is absent or trims to the empty string. -/
def POST (requestBody : Option PublishRequestBody) (upstream : PublishResponse) : RouteResult :=
  match requestBody with
  | none => ⟨400, .errorBody "Invalid JSON body received.", false⟩
  | some body =>
    let videoUrl := (body.videoUrl.map jsTrim).getD ""
    let caption := (body.caption.map jsTrim).getD ""
    if videoUrl = "" then
      ⟨400, .errorBody "Provide a publicly accessible videoUrl.", false⟩
    else if caption = "" then
      ⟨400, .errorBody "Caption cannot be empty.", false⟩
    else
      ⟨if upstream.status = "success" then 200 else 502, .upstreamBody upstream, true⟩

/-- The hydration effect of `usePersistentState` (part_000 lines 7-19) for a
given key: `stored` is `localStorage.getItem(key)` (`none` when the key is
absent), `parse` is `JSON.parse` (`none` when it throws).  Returns the
resulting state together with the `hydrated` flag, which the `finally`
block sets in every case.  The `if (storedValue)` guard skips the parse for
the empty string as well as for `null`. -/
def hydrateState {α : Type} (defaultValue : α) (stored : Option String)
    (parse : String → Option α) : α × Bool :=
  match stored with
  | none => (defaultValue, true)
  | some s =>
    if s = "" then (defaultValue, true)
    else
      match parse s with
      | some v => (v, true)
      | none => (defaultValue, true)

/-- One call of the `updateState` callback (part_000 lines 21-35): the next
state is the update value, or the updater applied to the previous state;
`serialize` is `JSON.stringify` + `localStorage.setItem` (`none` when the
write throws, in which case the stored value is left as it was).  Returns
the new in-memory state and the new stored value. -/
def updateStateStep {α : Type} (stored : Option String) (prev : α)
    (update : α ⊕ (α → α)) (serialize : α → Option String) : α × Option String :=
  let nextValue := match update with
    | .inl v => v
    | .inr f => f prev
  match serialize nextValue with
  | some s => (nextValue, some s)
  | none => (nextValue, stored)

/-- A dispatch outcome counts as a failure exactly when it does not take the
success branch `response.ok && result.status === "success"` of
`handlePublish` (part_000 line 175). -/
def dispatchFailed : DispatchOutcome → Bool
  | .thrown _ => true
  | .replied ok result => !(ok && result.status = "success")

/-- The failure reason `handlePublish` records as `notes` (part_000 lines
183 and 189): the server-provided message with fallback
`"Failed to publish video."`, or the exception's message with fallback
`"Unexpected error while publishing."`. -/
def failureNotes : DispatchOutcome → String
  | .thrown errMsg => errMsg.getD "Unexpected error while publishing."
  | .replied _ result => result.message.getD "Failed to publish video."

/-- The outbound caption as the spec sentence words it, read literally:
the task's caption, then a blank line, then the space-joined hashtags when
the hashtag list is non-empty; the caption alone when it is empty.
(For comparison against `composeOutboundCaption`, which is the code's
actual `filter(Boolean).join("\n\n")` composition.) -/
def specWordedCaption (task : VideoTask) : String :=
  if task.hashtags = [] then task.caption
  else task.caption ++ "\n\n" ++ " ".intercalate task.hashtags

/-- A concrete staged task used to instantiate the theorems below. -/
def exTask : VideoTask where
  id := "t1"
  date := "2026-10-10"
  time := "09:00"
  title := "Demo drop"
  caption := "Daily drop"
  hashtags := ["#reels"]
  videoUrl := "https://example.com/v.mp4"
  autopost := true
  notes := none
  status := .queued
  createdAt := "2026-10-09T08:00:00.000Z"
  updatedAt := "2026-10-09T08:00:00.000Z"

lemma intercalate_nil_str (s : String) : s.intercalate [] = "" := rfl

lemma intercalate_one_str (s a : String) : s.intercalate [a] = a := rfl

lemma intercalate_two_str (s a b : String) : s.intercalate [a, b] = a ++ s ++ b := rfl

/-- A member of `updateTask tasks taskId upd now` whose id equals `taskId`
is the updated image of a matching member of `tasks`. -/
lemma mem_updateTask_matching {tasks : List VideoTask} {taskId : String}
    {upd : PartialVideoTask} {now : String} {u : VideoTask}
    (hm : u ∈ updateTask tasks taskId upd now) (hid : u.id = taskId) :
    ∃ t ∈ tasks, t.id = taskId ∧ u = applyUpdates t upd now := by
  unfold updateTask at hm
  obtain ⟨t, ht, heq⟩ := List.mem_map.mp hm
  by_cases h : t.id = taskId
  · exact ⟨t, ht, h, by simpa [h] using heq.symm⟩
  · rw [if_neg h] at heq
    subst heq
    exact absurd hid h

lemma applyUpdates_status (task : VideoTask) (upd : PartialVideoTask) (now : String) :
    (applyUpdates task upd now).status = upd.status.getD task.status := rfl

lemma applyUpdates_notes_some (task : VideoTask) (upd : PartialVideoTask) (now : String)
    (n : String) (h : upd.notes = some n) : (applyUpdates task upd now).notes = some n := by
  simp [applyUpdates, h]

/-- A second concrete task, with a different id, for frame-condition
instantiations. -/
def exOtherTask : VideoTask where
  id := "t2"
  date := "2026-10-11"
  time := "12:30"
  title := "Second drop"
  caption := "Another drop"
  hashtags := []
  videoUrl := "https://example.com/w.mp4"
  autopost := false
  notes := some "editor note"
  status := .ready
  createdAt := "2026-10-09T08:05:00.000Z"
  updatedAt := "2026-10-09T08:05:00.000Z"

/-- C4: a task is in the overdue set iff it is in the store, its scheduled
date+time is strictly before the current instant, and its status is not
`published`; membership is otherwise independent of status, so a task
scheduled in the future is never overdue. -/
theorem overdue_iff_past_and_not_published (tasks : List VideoTask) (now : String)
    (t : VideoTask) :
    t ∈ overdueTasks tasks now ↔
      t ∈ tasks ∧ scheduledAt t < now ∧ t.status ≠ .published := by
  simp [overdueTasks, List.mem_filter, and_assoc]

/-- C5: saving a valid task draft produces a task whose status is `queued`
iff the draft's autopost flag is true (and `ready` otherwise). -/
theorem saveTaskDraft_status_queued_iff_autopost (draft : TaskDraft) (id now : String) :
    ((saveTaskDraft draft id now).status = .queued ↔ draft.autopost = true) ∧
      (draft.autopost = false → (saveTaskDraft draft id now).status = .ready) := by
  cases h : draft.autopost <;> simp [saveTaskDraft, h]

/-- A draft with the autopost flag on. -/
def exDraftAuto : TaskDraft :=
  ⟨"2026-10-10", "09:00", "Demo drop", "Daily drop", ["#reels"],
    "https://example.com/v.mp4", true, none⟩

/-- The same draft with the autopost flag off. -/
def exDraftManual : TaskDraft :=
  { exDraftAuto with autopost := false }

/-- Witness for C5: saving the autopost draft yields a `queued` task,
saving the manual-review draft yields a `ready` one. -/
theorem saveTaskDraft_status_queued_iff_autopost_witness :
    (saveTaskDraft exDraftAuto "t1" "T0").status = .queued ∧
      (saveTaskDraft exDraftManual "t1" "T0").status = .ready :=
  ⟨(saveTaskDraft_status_queued_iff_autopost exDraftAuto "t1" "T0").1.mpr rfl,
    (saveTaskDraft_status_queued_iff_autopost exDraftManual "t1" "T0").2 rfl⟩

/-- C9: applying a partial update to a task id mutates exactly the matching
record — it becomes the spread of the old record with the update, with
`updatedAt` refreshed to the new timestamp — while the collection keeps its
length and every non-matching record is unchanged in all fields. -/
theorem updateTask_mutates_exactly_matching (tasks : List VideoTask) (taskId : String)
    (upd : PartialVideoTask) (now : String) :
    (updateTask tasks taskId upd now).length = tasks.length ∧
      (∀ (i : Nat) (t : VideoTask), tasks[i]? = some t → t.id = taskId →
        (updateTask tasks taskId upd now)[i]? = some (applyUpdates t upd now) ∧
          (applyUpdates t upd now).updatedAt = now) ∧
      (∀ (i : Nat) (t : VideoTask), tasks[i]? = some t → t.id ≠ taskId →
        (updateTask tasks taskId upd now)[i]? = some t) := by
  refine ⟨by simp [updateTask], ?_, ?_⟩
  · intro i t hi hid
    refine ⟨?_, rfl⟩
    simp [updateTask, List.getElem?_map, hi, hid]
  · intro i t hi hid
    simp [updateTask, List.getElem?_map, hi, hid]

/-- Witness for C9: on a store holding two tasks, updating the id of the
first rewrites exactly the first record (with refreshed timestamp) and
leaves the second untouched. -/
theorem updateTask_mutates_exactly_matching_witness :
    ((updateTask [exTask, exOtherTask] "t1" { status := some .failed } "T9")[0]? =
        some (applyUpdates exTask { status := some .failed } "T9") ∧
      (applyUpdates exTask { status := some .failed } "T9").updatedAt = "T9") ∧
      (updateTask [exTask, exOtherTask] "t1" { status := some .failed } "T9")[1]? =
        some exOtherTask :=
  ⟨(updateTask_mutates_exactly_matching [exTask, exOtherTask] "t1"
      { status := some .failed } "T9").2.1 0 exTask (by decide) (by decide),
    (updateTask_mutates_exactly_matching [exTask, exOtherTask] "t1"
      { status := some .failed } "T9").2.2 1 exOtherTask (by decide) (by decide)⟩

/-- C10: a partial update addressed to an id matching no task in the
collection leaves the collection exactly unchanged — no error, nothing
inserted — so a publish outcome for a deleted task is silently dropped. -/
theorem updateTask_unmatched_id_is_noop (tasks : List VideoTask) (taskId : String)
    (upd : PartialVideoTask) (now : String)
    (h : ∀ t ∈ tasks, t.id ≠ taskId) :
    updateTask tasks taskId upd now = tasks := by
  unfold updateTask
  conv_rhs => rw [← List.map_id tasks]
  apply List.map_congr_left
  intro t ht
  simp [h t ht]

/-- Witness for C10: updating a task id absent from the store is a no-op. -/
theorem updateTask_unmatched_id_is_noop_witness :
    updateTask [exTask, exOtherTask] "deleted-id" { status := some .published } "T9" =
      [exTask, exOtherTask] :=
  updateTask_unmatched_id_is_noop [exTask, exOtherTask] "deleted-id"
    { status := some .published } "T9" (by decide)

/-- C1: on any failed dispatch — an exception, a non-2xx response, or a
parsed body whose status field is not `"success"` — the task ends in status
`failed` with notes equal to the server message, the exception message, or
the matching generic fallback. -/
theorem publish_failure_sets_failed_with_reason (tasks : List VideoTask) (task : VideoTask)
    (outcome : DispatchOutcome) (now1 now2 : String)
    (hfail : dispatchFailed outcome = true) :
    ∀ u ∈ handlePublish tasks task outcome now1 now2, u.id = task.id →
      u.status = .failed ∧ u.notes = some (failureNotes outcome) := by
  intro u hu hid
  cases outcome with
  | thrown errMsg =>
    unfold handlePublish at hu
    obtain ⟨t, ht, htid, rfl⟩ := mem_updateTask_matching hu hid
    exact ⟨rfl, rfl⟩
  | replied ok result =>
    have hcond : (ok && decide (result.status = "success")) = false := by
      have h : (!(ok && decide (result.status = "success"))) = true := hfail
      cases hb : (ok && decide (result.status = "success"))
      · rfl
      · rw [hb] at h
        exact absurd h (by decide)
    simp only [handlePublish, hcond, Bool.false_eq_true, if_false] at hu
    obtain ⟨t, ht, htid, rfl⟩ := mem_updateTask_matching hu hid
    exact ⟨rfl, rfl⟩

/-- The dispatch outcome used to instantiate the failure-path theorem: a
502-style reply carrying an application error. -/
def exFailOutcome : DispatchOutcome :=
  .replied false ⟨"error", some "rate limited", none, none⟩

/-- The record the failure path is expected to leave in the store. -/
def exFailedTask : VideoTask :=
  { exTask with status := .failed, notes := some "rate limited", updatedAt := "T2" }

/-- Witness for C1: publishing `exTask` against a failing upstream leaves
it `failed` with the server's message as notes. -/
theorem publish_failure_sets_failed_with_reason_witness :
    dispatchFailed exFailOutcome = true ∧
      exFailedTask ∈ handlePublish [exTask] exTask exFailOutcome "T1" "T2" ∧
      exFailedTask.status = .failed ∧ exFailedTask.notes = some (failureNotes exFailOutcome) :=
  ⟨rfl, by decide,
    publish_failure_sets_failed_with_reason [exTask] exTask exFailOutcome "T1" "T2" rfl
      exFailedTask (by decide) rfl⟩

/-- C2: on a 2xx response whose status field is `"success"`, the task ends
in status `published` with notes recording the returned media id (or the
marker `"unknown"` when absent), and the intermediate store state — set
before the external request was issued — has the task in `publishing`. -/
theorem publish_success_publishes_after_publishing (tasks : List VideoTask)
    (task : VideoTask) (ok : Bool) (result : PublishResponse) (now1 now2 : String)
    (hok : ok = true) (hs : result.status = "success") :
    (∀ u ∈ handlePublishMid tasks task now1, u.id = task.id → u.status = .publishing) ∧
      (∀ u ∈ handlePublish tasks task (.replied ok result) now1 now2, u.id = task.id →
        u.status = .published ∧
          u.notes = some ("Published with media id " ++ result.instagramMediaId.getD "unknown")) := by
  constructor
  · intro u hu hid
    unfold handlePublishMid at hu
    obtain ⟨t, ht, htid, rfl⟩ := mem_updateTask_matching hu hid
    rfl
  · intro u hu hid
    subst hok
    have hcond : (true && decide (result.status = "success")) = true := by simp [hs]
    simp only [handlePublish, hcond, if_true] at hu
    obtain ⟨t, ht, htid, rfl⟩ := mem_updateTask_matching hu hid
    exact ⟨rfl, rfl⟩

/-- The success reply used to instantiate the success-path theorem. -/
def exSuccessResult : PublishResponse :=
  ⟨"success", some "Published", some "m123", none⟩

/-- The intermediate record while the request is in flight. -/
def exPublishingTask : VideoTask :=
  { exTask with status := .publishing, updatedAt := "T1" }

/-- The record the success path is expected to leave in the store. -/
def exPublishedTask : VideoTask :=
  { exTask with
    status := .published
    notes := some "Published with media id m123"
    updatedAt := "T2" }

/-- Witness for C2: publishing `exTask` against an upstream answering
`success` with media id `m123` passes through `publishing` and ends
`published` with the media id in the notes. -/
theorem publish_success_publishes_after_publishing_witness :
    exPublishingTask ∈ handlePublishMid [exTask] exTask "T1" ∧
      exPublishingTask.status = .publishing ∧
      exPublishedTask ∈ handlePublish [exTask] exTask (.replied true exSuccessResult) "T1" "T2" ∧
      exPublishedTask.status = .published ∧
      exPublishedTask.notes = some "Published with media id m123" :=
  ⟨by decide,
    (publish_success_publishes_after_publishing [exTask] exTask true exSuccessResult
      "T1" "T2" rfl rfl).1 exPublishingTask (by decide) rfl,
    by decide,
    (publish_success_publishes_after_publishing [exTask] exTask true exSuccessResult
      "T1" "T2" rfl rfl).2 exPublishedTask (by decide) rfl⟩

/-- A task whose hashtag list is non-empty but contains only the empty
string: a counterexample input for the literal reading of the caption
composition claim. -/
def cexCaptionTask : VideoTask :=
  { exTask with hashtags := [""] }

/-- C3 counterexample: for a task whose hashtag list is the non-empty list
`[""]`, the code's payload caption is the bare caption (the empty join is
dropped by `filter(Boolean)`), not the caption followed by a blank line as
the claim, read literally over every task, prescribes. -/
theorem publish_payload_caption_claim_refuted :
    (publishPayload cexCaptionTask).caption ≠ specWordedCaption cexCaptionTask := by
  decide

/-- C3 amended: the payload carries `videoUrl` verbatim, and its caption is
the blank-line join of the non-empty strings among the task's caption and
the space-joined hashtags: caption ++ blank line ++ join when both are
non-empty, the caption alone when the join is empty, and the join alone
when the caption is empty. -/
theorem publish_payload_caption_amended (task : VideoTask) :
    (publishPayload task).videoUrl = task.videoUrl ∧
      (publishPayload task).caption =
        (if task.caption = "" then " ".intercalate task.hashtags
         else if " ".intercalate task.hashtags = "" then task.caption
         else task.caption ++ "\n\n" ++ " ".intercalate task.hashtags) := by
  refine ⟨rfl, ?_⟩
  show composeOutboundCaption task.caption task.hashtags = _
  unfold composeOutboundCaption
  by_cases hc : task.caption = "" <;> by_cases hj : " ".intercalate task.hashtags = "" <;>
    simp [hc, hj, intercalate_nil_str, intercalate_one_str, intercalate_two_str]

/-- C6: an invalid-JSON body, a missing/empty `videoUrl`, or a missing/empty
`caption` (each after trimming) yields a 400 with the structured error
payload naming the problem, and the upstream publish call is not invoked. -/
theorem post_validation_returns_400_without_upstream (upstream : PublishResponse) :
    POST none upstream = ⟨400, .errorBody "Invalid JSON body received.", false⟩ ∧
      (∀ body : PublishRequestBody, (body.videoUrl.map jsTrim).getD "" = "" →
        POST (some body) upstream =
          ⟨400, .errorBody "Provide a publicly accessible videoUrl.", false⟩) ∧
      (∀ body : PublishRequestBody, (body.videoUrl.map jsTrim).getD "" ≠ "" →
        (body.caption.map jsTrim).getD "" = "" →
        POST (some body) upstream = ⟨400, .errorBody "Caption cannot be empty.", false⟩) := by
  refine ⟨rfl, ?_, ?_⟩
  · intro body h
    simp [POST, h]
  · intro body h1 h2
    simp [POST, h1, h2]

/-- An upstream reply reporting success. -/
def exUpstreamOk : PublishResponse :=
  ⟨"success", some "Published", some "m123", some "p1"⟩

/-- An upstream reply reporting an application error. -/
def exUpstreamErr : PublishResponse :=
  ⟨"error", some "rate limited", none, none⟩

/-- Witness for C6: the three validation rejections at concrete bodies,
none of which invokes the upstream. -/
theorem post_validation_returns_400_without_upstream_witness :
    POST none exUpstreamOk = ⟨400, .errorBody "Invalid JSON body received.", false⟩ ∧
      POST (some ⟨some "", some "cap"⟩) exUpstreamOk =
        ⟨400, .errorBody "Provide a publicly accessible videoUrl.", false⟩ ∧
      POST (some ⟨some "https://example.com/v.mp4", some "  "⟩) exUpstreamOk =
        ⟨400, .errorBody "Caption cannot be empty.", false⟩ :=
  ⟨(post_validation_returns_400_without_upstream exUpstreamOk).1,
    (post_validation_returns_400_without_upstream exUpstreamOk).2.1
      ⟨some "", some "cap"⟩ (by decide),
    (post_validation_returns_400_without_upstream exUpstreamOk).2.2
      ⟨some "https://example.com/v.mp4", some "  "⟩ (by decide) (by decide)⟩

/-- C7: a validated request is always delegated upstream, and the route
returns 200 with the upstream payload when the upstream status is
`"success"` and 502 with the same upstream payload otherwise — no upstream
failure is dropped. -/
theorem post_forwards_upstream_result (body : PublishRequestBody)
    (upstream : PublishResponse)
    (h1 : (body.videoUrl.map jsTrim).getD "" ≠ "")
    (h2 : (body.caption.map jsTrim).getD "" ≠ "") :
    POST (some body) upstream =
      ⟨if upstream.status = "success" then 200 else 502, .upstreamBody upstream, true⟩ := by
  simp [POST, h1, h2]

/-- The validated request body used to instantiate the delegation theorem. -/
def exGoodBody : PublishRequestBody :=
  ⟨some "https://example.com/v.mp4", some "Daily drop"⟩

/-- Witness for C7: a validated body yields 200 + upstream payload on a
success reply and 502 + upstream payload on an error reply. -/
theorem post_forwards_upstream_result_witness :
    POST (some exGoodBody) exUpstreamOk = ⟨200, .upstreamBody exUpstreamOk, true⟩ ∧
      POST (some exGoodBody) exUpstreamErr = ⟨502, .upstreamBody exUpstreamErr, true⟩ :=
  ⟨post_forwards_upstream_result exGoodBody exUpstreamOk (by decide) (by decide),
    post_forwards_upstream_result exGoodBody exUpstreamErr (by decide) (by decide)⟩

/-- C8: hydration yields the empty collection (with the hydrated flag set)
when no value is stored or when the stored value fails to parse, and a
subsequent write still produces exactly the requested next state. -/
theorem persistent_state_read_failure_falls_back (stored : Option String)
    (parse : String → Option (List VideoTask)) :
    (stored = none → hydrateState ([] : List VideoTask) stored parse = ([], true)) ∧
      (∀ s, stored = some s → parse s = none →
        hydrateState ([] : List VideoTask) stored parse = ([], true)) ∧
      (∀ (prev : List VideoTask)
        (update : List VideoTask ⊕ (List VideoTask → List VideoTask))
        (serialize : List VideoTask → Option String),
        (updateStateStep stored prev update serialize).1 =
          match update with
          | .inl v => v
          | .inr f => f prev) := by
  refine ⟨?_, ?_, ?_⟩
  · rintro rfl
    rfl
  · rintro s rfl hp
    by_cases hs : s = "" <;> simp [hydrateState, hs, hp]
  · intro prev update serialize
    cases update with
    | inl v =>
      unfold updateStateStep
      cases h : serialize v <;> simp [h]
    | inr f =>
      unfold updateStateStep
      cases h : serialize (f prev) <;> simp [h]

/-- Witness for C8: a corrupt stored value hydrates to the empty collection
with the hydrated flag set, after which a write of a one-task collection
succeeds. -/
theorem persistent_state_read_failure_falls_back_witness :
    hydrateState ([] : List VideoTask) (some "corrupt") (fun _ => none) = ([], true) ∧
      (updateStateStep (some "corrupt") ([] : List VideoTask) (.inl [exTask])
        (fun _ => some "serialized")).1 = [exTask] :=
  ⟨(persistent_state_read_failure_falls_back (some "corrupt") (fun _ => none)).2.1
      "corrupt" rfl rfl,
    (persistent_state_read_failure_falls_back (some "corrupt") (fun _ => none)).2.2
      [] (.inl [exTask]) (fun _ => some "serialized")⟩
